import Mathlib

/-!
Verification of the ACL-handling core of the swift3 gateway
(`swift3/acl_handlers.py`): the static permission table `ACL_MAP`, the
ACL extraction function `get_acl`, the generic authorization check
`BaseAclHandler._handle_acl`, the verb dispatch `handle_acl`, and the
specialized authorizers (bucket creation, the S3 ACL endpoint, and the
multipart-upload family).

Strings from the request layer (verbs, resource kinds) are embedded as
`String`; container and object names and user ids are embedded as
`List Char` (Python `str` slicing such as `s[:-n]` is character based,
which `List.take` mirrors exactly, including the clamping behaviour for
short strings).
-/

namespace Swift3

/-- The S3 permission vocabulary used by `ACL_MAP` and the grant model
(`swift3/subresource.py` vocabulary: OWNER/READ/WRITE/READ_ACP/WRITE_ACP,
plus FULL_CONTROL for grants). -/
inductive Perm where
  | OWNER
  | READ
  | WRITE
  | READ_ACP
  | WRITE_ACP
  | FULL_CONTROL
deriving DecidableEq, Repr

/-- `Owner` value object: id and display name. -/
structure Owner where
  id : List Char
  name : List Char
deriving DecidableEq, Repr

/-- A single grant: grantee identity and granted permission. -/
structure Grant where
  grantee : List Char
  permission : Perm
deriving DecidableEq, Repr

/-- The `ACL` value object: owner plus ordered grant list. -/
structure ACL where
  owner : Owner
  grants : List Grant
deriving DecidableEq, Repr

/-- The raised error conditions of the ACL core
(`swift3/response.py` error classes, abstracted to their identity).
`Propagated` stands for a re-raised exception that is not one of the
module's own error classes. -/
inductive S3Err where
  | MissingSecurityHeader
  | MalformedACLError
  | UnexpectedContent
  | AccessDenied
  | OwnerMismatch
  | Propagated
deriving DecidableEq, Repr

/-- Outcome of parsing an ACL XML body: `schemaErr` covers
`XMLSyntaxError` and `DocumentInvalid`; `otherErr` is any other
exception raised by the parser. -/
inductive XmlErr where
  | schemaErr
  | otherErr
deriving DecidableEq, Repr

/-- Embedding of `get_acl(headers, body, bucket_owner, object_owner)`
(src/swift3/acl_handlers.py lines 52-77).  `ACL.from_headers` and the
XML reader live in modules outside src/, so the header-derived ACL is
taken as the parameter `fromHeadersAcl` (the value `ACL.from_headers`
returned) and the body parser as the parameter `parseBody`; the control
flow of `get_acl` itself is translated line by line. -/
def get_acl (fromHeadersAcl : Option ACL) (body : List Char)
    (parseBody : List Char → Except XmlErr ACL) : Except S3Err ACL :=
  match fromHeadersAcl with
  | none =>
      if body = [] then
        .error .MissingSecurityHeader
      else
        match parseBody body with
        | .ok a => .ok a
        | .error .schemaErr => .error .MalformedACLError
        | .error .otherErr => .error .Propagated
  | some acl =>
      if body = [] then .ok acl else .error .UnexpectedContent

/-- Modelled from the spec: `ACL.check_owner` is defined in
`swift3/subresource.py`, which is not under src/.  Spec: "Writing must
reject (owner-mismatch error) if the newly supplied ACL's owner id
differs from the existing resource's owner id". -/
def check_owner (acl : ACL) (ownerId : List Char) : Except S3Err Unit :=
  if ownerId = acl.owner.id then .ok () else .error .OwnerMismatch

/-- Modelled from the spec: `ACL.check_permission` is defined in
`swift3/subresource.py`, which is not under src/.  Spec §4.3 step 5:
the caller holds the required permission if the caller is the owner, or
some grant names the caller with a permission equal to or subsuming
(FULL_CONTROL) the required one. -/
def hasPermission (acl : ACL) (userId : List Char) (p : Perm) : Bool :=
  decide (userId = acl.owner.id) ||
    acl.grants.any (fun g =>
      decide (g.grantee = userId) &&
        (decide (g.permission = p) || decide (g.permission = Perm.FULL_CONTROL)))

/-- A value of the permission table: the optional `'Resource'` override
and the mandatory `'Permission'`. -/
structure AclRule where
  resource : Option String
  permission : Perm
deriving DecidableEq, Repr

/-- Embedding of `ACL_MAP` (src/swift3/acl_handlers.py lines 345-383),
keyed by (s3_method, swift_method, swift_resource), in source order. -/
def ACL_MAP : List ((String × String × String) × AclRule) :=
  [ (("HEAD", "HEAD", "container"), ⟨none, .READ⟩),
    (("GET", "HEAD", "container"), ⟨none, .OWNER⟩),
    (("GET", "GET", "container"), ⟨none, .READ⟩),
    (("PUT", "HEAD", "container"), ⟨none, .WRITE⟩),
    (("DELETE", "DELETE", "container"), ⟨none, .OWNER⟩),
    (("HEAD", "HEAD", "object"), ⟨none, .READ⟩),
    (("GET", "GET", "object"), ⟨none, .READ⟩),
    (("PUT", "HEAD", "object"), ⟨none, .READ⟩),
    (("POST", "PUT", "container"), ⟨none, .WRITE⟩),
    (("DELETE", "HEAD", "container"), ⟨none, .WRITE⟩),
    (("DELETE", "DELETE", "object"), ⟨some "container", .WRITE⟩),
    (("POST", "HEAD", "container"), ⟨none, .WRITE⟩) ]

/-- Dictionary lookup `ACL_MAP[(m, sw, res)]` / the membership test
`(m, sw, res) in ACL_MAP`. -/
def aclMapLookup (k : String × String × String) : Option AclRule :=
  (ACL_MAP.find? (fun p => decide (p.1 = k))).map (fun p => p.2)

/-- A backend request issued through `Request.get_acl_response`. -/
structure ProbeLog where
  verb : String
  container : List Char
  obj : List Char
deriving DecidableEq, Repr

/-- Result of the generic check `BaseAclHandler._handle_acl`:
`skipped` is the early return on an empty container name; `fatal` is the
`Exception('No permission to be checked exists')`; `denied` is
`check_permission` raising access-denied after the probe; `passed`
records the probe issued, the permission checked, and whether the probe
response is returned to the caller (`sw_method == 'HEAD'`). -/
inductive HandleAclResult where
  | skipped
  | fatal
  | denied (probe : ProbeLog) (permission : Perm)
  | passed (probe : ProbeLog) (permission : Perm) (returnsResp : Bool)
deriving DecidableEq, Repr

/-- The resolution step of `BaseAclHandler._handle_acl`
(src/swift3/acl_handlers.py lines 129-132): keep an explicitly supplied
permission untouched; otherwise consult `ACL_MAP`, applying its
`'Resource'` override when present.  Returns the (possibly overridden)
resource kind and the permission to check, `none` meaning no permission
could be resolved. -/
def resolveRule (selfMethod swMethod resource : String)
    (permission : Option Perm) : String × Option Perm :=
  match permission, aclMapLookup (selfMethod, swMethod, resource) with
  | some p, _ => (resource, some p)
  | none, some rule => (rule.resource.getD resource, some rule.permission)
  | none, none => (resource, none)

/-- Embedding of `BaseAclHandler._handle_acl`
(src/swift3/acl_handlers.py lines 111-150).  `selfMethod` is
`self.method` (the incoming S3 verb), `swMethod` the `sw_method`
argument; `container`/`obj`/`permission` are the arguments after the
`self.`-defaulting of lines 120-121; `bucketAcl`/`objectAcl` are the
ACLs the backend returns for the container and object probes. -/
def _handle_acl (selfMethod swMethod : String) (container obj : List Char)
    (permission : Option Perm) (userId : List Char)
    (bucketAcl objectAcl : ACL) : HandleAclResult :=
  let resource : String := if obj = [] then "container" else "object"
  if container = [] then
    .skipped
  else
    let rp := resolveRule selfMethod swMethod resource permission
    match rp.2 with
    | none => .fatal
    | some p =>
        let probe : ProbeLog :=
          if rp.1 = "object" then ⟨"HEAD", container, obj⟩
          else ⟨"HEAD", container, []⟩
        let acl : ACL := if rp.1 = "object" then objectAcl else bucketAcl
        if hasPermission acl userId p then
          .passed probe p (decide (swMethod = "HEAD"))
        else
          .denied probe p

/-- The authorizer classes defined in the module. -/
inductive HandlerKind where
  | base
  | bucket
  | object
  | s3Acl
  | multiObjectDelete
  | multiUpload
  | part
  | uploads
  | upload
deriving DecidableEq, Repr

/-- Which S3-verb-named methods each authorizer class defines (what
`hasattr(self, method)` sees for an HTTP verb, inherited methods
included): `BucketAclHandler.PUT`, `ObjectAclHandler.PUT`,
`S3AclHandler.{GET,PUT,POST}`, `MultiObjectDeleteAclHandler.DELETE`,
`MultiUploadAclHandler.HEAD` (inherited by `PartAclHandler`,
`UploadsAclHandler`, `UploadAclHandler`, the latter two overriding or
adding `GET`/`PUT`/`HEAD`). -/
def definesVerbMethod : HandlerKind → String → Bool
  | .base, _ => false
  | .bucket, m => decide (m = "PUT")
  | .object, m => decide (m = "PUT")
  | .s3Acl, m => decide (m = "GET" ∨ m = "PUT" ∨ m = "POST")
  | .multiObjectDelete, m => decide (m = "DELETE")
  | .multiUpload, m => decide (m = "HEAD")
  | .part, m => decide (m = "HEAD")
  | .uploads, m => decide (m = "GET" ∨ m = "PUT" ∨ m = "HEAD")
  | .upload, m => decide (m = "HEAD")

/-- Whether the class inherits `MultiUploadAclHandler.handle_acl`. -/
def isMultiUploadFamily : HandlerKind → Bool
  | .multiUpload | .part | .uploads | .upload => true
  | _ => false

/-- What a `handle_acl` call dispatches to. -/
inductive Dispatch where
  | callOwnMethod (m : String)
  | genericCheck (m : String)
  | noCheck
deriving DecidableEq, Repr

/-- Embedding of `BaseAclHandler.handle_acl`
(src/swift3/acl_handlers.py lines 104-109): call the verb-named method
when defined, else run the generic check with the verb as `sw_method`. -/
def BaseAclHandler_handle_acl (k : HandlerKind) (m : String) : Dispatch :=
  if definesVerbMethod k m then .callOwnMethod m else .genericCheck m

/-- Embedding of `MultiUploadAclHandler.handle_acl`
(src/swift3/acl_handlers.py lines 269-275): call the verb-named method
when defined, else `pass` (no check at all). -/
def MultiUploadAclHandler_handle_acl (k : HandlerKind) (m : String) : Dispatch :=
  if definesVerbMethod k m then .callOwnMethod m else .noCheck

/-- The `handle_acl` actually invoked on an authorizer of class `k`:
the multipart-upload family overrides `BaseAclHandler.handle_acl`.
`method` is the `method` argument (`None` falls back to `self.method`,
line 105 / line 270). -/
def handle_acl (k : HandlerKind) (method : Option String)
    (selfMethod : String) : Dispatch :=
  let m := method.getD selfMethod
  if isMultiUploadFamily k then MultiUploadAclHandler_handle_acl k m
  else BaseAclHandler_handle_acl k m

/-- Events observable during `BucketAclHandler.PUT`: backend calls
issued through `Request.get_acl_response` and the assignment to
`self.req.bucket_acl`. -/
inductive BucketEvent where
  | backendCall (verb : String)
  | setBucketAcl
deriving DecidableEq, Repr

/-- The request/backend state threaded through `BucketAclHandler.PUT`:
the ordered trace of events so far and the bucket ACL metadata the
request object carries. -/
structure GatewayState where
  trace : List BucketEvent
  bucket_acl : Option ACL
deriving DecidableEq, Repr

/-- `Request.get_acl_response(app, verb)` as seen from this module:
it issues one backend call (logged) and either succeeds or raises
(`backendOk verb` is whether the backend accepts the call). -/
def get_acl_response (backendOk : String → Bool) (verb : String)
    (st : GatewayState) : GatewayState × Bool :=
  ({ st with trace := st.trace ++ [.backendCall verb] }, backendOk verb)

/-- Embedding of `BucketAclHandler.PUT`
(src/swift3/acl_handlers.py lines 157-171): send the backend `PUT`
first; if it raises, nothing further happens; otherwise set
`self.req.bucket_acl` to the requested ACL and send the
metadata-persisting `POST`. -/
def BucketAclHandler_PUT (backendOk : String → Bool) (req_acl : ACL)
    (st : GatewayState) : GatewayState :=
  let r1 := get_acl_response backendOk "PUT" st
  if r1.2 = false then
    r1.1
  else
    let st2 : GatewayState :=
      { trace := r1.1.trace ++ [.setBucketAcl], bucket_acl := some req_acl }
    (get_acl_response backendOk "POST" st2).1

/-- Embedding of the object branch of `S3AclHandler.PUT`
(src/swift3/acl_handlers.py lines 193-209): probe the bucket
(`b_resp`, no permission check), run the generic check on the object
with explicit permission `WRITE_ACP` (`o_resp`), extract the requested
ACL with `get_acl`, enforce `check_owner`, and only then store the new
object ACL.  `.ok a` means `self.req.object_acl` is set to `a`; any
`.error` means the assignment never happens.  A `skipped`/`fatal`
outcome of the generic check surfaces as a raised exception
(`Propagated`). -/
def S3AclHandler_PUT_object (userId : List Char) (container obj : List Char)
    (bucketAcl objectAcl : ACL) (fromHeadersAcl : Option ACL)
    (body : List Char) (parseBody : List Char → Except XmlErr ACL) :
    Except S3Err ACL :=
  match _handle_acl "PUT" "HEAD" container obj (some .WRITE_ACP)
      userId bucketAcl objectAcl with
  | .passed _ _ _ =>
      match get_acl fromHeadersAcl body parseBody with
      | .error e => .error e
      | .ok req_acl =>
          match check_owner objectAcl req_acl.owner.id with
          | .error e => .error e
          | .ok _ => .ok req_acl
  | .denied _ _ => .error .AccessDenied
  | .skipped => .error .Propagated
  | .fatal => .error .Propagated

/-- Embedding of the bucket branch of `S3AclHandler.POST`
(src/swift3/acl_handlers.py lines 213-228): generic check on the
container with explicit permission `WRITE_ACP`, `get_acl` extraction,
`check_owner` against the existing bucket owner, then store the new
bucket ACL (`.ok a` means `self.req.bucket_acl := a`). -/
def S3AclHandler_POST_bucket (userId : List Char) (container : List Char)
    (bucketAcl objectAcl : ACL) (fromHeadersAcl : Option ACL)
    (body : List Char) (parseBody : List Char → Except XmlErr ACL) :
    Except S3Err ACL :=
  match _handle_acl "POST" "HEAD" container [] (some .WRITE_ACP)
      userId bucketAcl objectAcl with
  | .passed _ _ _ =>
      match get_acl fromHeadersAcl body parseBody with
      | .error e => .error e
      | .ok req_acl =>
          match check_owner bucketAcl req_acl.owner.id with
          | .error e => .error e
          | .ok _ => .ok req_acl
  | .denied _ _ => .error .AccessDenied
  | .skipped => .error .Propagated
  | .fatal => .error .Propagated

/-- Modelled from the spec: `MULTIUPLOAD_SUFFIX` is defined in
`swift3/utils.py`, which is not under src/; the spec says only that it
is a fixed upload-session marker appended to the container name
("suffix length is fixed and exact"), so it is embedded as the fixed
nonempty marker string the gateway uses. -/
def MULTIUPLOAD_SUFFIX : List Char := "+segments".toList

/-- Embedding of the container computed by
`MultiUploadAclHandler.__init__`
(src/swift3/acl_handlers.py lines 264-267):
`self.container = self.container[:-len(MULTIUPLOAD_SUFFIX)]`, applied
unconditionally to the container name `c` resolved by the base
constructor. -/
def MultiUploadAclHandler_initContainer (c : List Char) : List Char :=
  c.take (c.length - MULTIUPLOAD_SUFFIX.length)

/-- The fields `PartAclHandler.__init__` computes. -/
structure PartAclHandlerState where
  container : List Char
  check_copy_src : Bool
deriving DecidableEq, Repr

/-- Embedding of `PartAclHandler.__init__`
(src/swift3/acl_handlers.py lines 286-294): it bypasses
`MultiUploadAclHandler.__init__` and strips the suffix only when the
container name actually ends with it, otherwise keeping the name and
enabling the copy-source check. -/
def PartAclHandler_init (c : List Char) : PartAclHandlerState :=
  if MULTIUPLOAD_SUFFIX.isSuffixOf c then
    { container := c.take (c.length - MULTIUPLOAD_SUFFIX.length),
      check_copy_src := false }
  else
    { container := c, check_copy_src := true }

/-- The twelve (incoming-verb, backend-verb, resource) triples of the
spec's authorization checkpoint table (§4.5), written from the spec for
comparison with `ACL_MAP`. -/
def checkpointTriples : List (String × String × String) :=
  [ ("HEAD", "HEAD", "container"),
    ("GET", "HEAD", "container"),
    ("GET", "GET", "container"),
    ("PUT", "HEAD", "container"),
    ("DELETE", "DELETE", "container"),
    ("HEAD", "HEAD", "object"),
    ("GET", "GET", "object"),
    ("PUT", "HEAD", "object"),
    ("POST", "PUT", "container"),
    ("DELETE", "HEAD", "container"),
    ("DELETE", "DELETE", "object"),
    ("POST", "HEAD", "container") ]

/-- A successful `aclMapLookup` only happens at a key of `ACL_MAP`. -/
theorem aclMapLookup_mem_of_some (k : String × String × String) (r : AclRule)
    (h : aclMapLookup k = some r) : k ∈ ACL_MAP.map (fun p => p.1) := by
  unfold aclMapLookup at h
  cases hf : ACL_MAP.find? (fun p => decide (p.1 = k)) with
  | none => rw [hf] at h; simp at h
  | some q =>
      have h1 := List.find?_some hf
      have h2 : q ∈ ACL_MAP := List.mem_of_find?_eq_some hf
      have h3 : q.1 = k := of_decide_eq_true h1
      exact h3 ▸ List.mem_map.mpr ⟨q, h2, rfl⟩

/-- C1: each of the twelve checkpoint triples looks up in `ACL_MAP` to
exactly the documented permission, with the resource override to
`container` appearing only on the DELETE-object row, and every triple
outside the checkpoint table is absent from `ACL_MAP`. -/
theorem C1_acl_map_is_checkpoint_table :
    (aclMapLookup ("HEAD", "HEAD", "container") = some ⟨none, .READ⟩
      ∧ aclMapLookup ("GET", "HEAD", "container") = some ⟨none, .OWNER⟩
      ∧ aclMapLookup ("GET", "GET", "container") = some ⟨none, .READ⟩
      ∧ aclMapLookup ("PUT", "HEAD", "container") = some ⟨none, .WRITE⟩
      ∧ aclMapLookup ("DELETE", "DELETE", "container") = some ⟨none, .OWNER⟩
      ∧ aclMapLookup ("HEAD", "HEAD", "object") = some ⟨none, .READ⟩
      ∧ aclMapLookup ("GET", "GET", "object") = some ⟨none, .READ⟩
      ∧ aclMapLookup ("PUT", "HEAD", "object") = some ⟨none, .READ⟩
      ∧ aclMapLookup ("POST", "PUT", "container") = some ⟨none, .WRITE⟩
      ∧ aclMapLookup ("DELETE", "HEAD", "container") = some ⟨none, .WRITE⟩
      ∧ aclMapLookup ("DELETE", "DELETE", "object")
          = some ⟨some "container", .WRITE⟩
      ∧ aclMapLookup ("POST", "HEAD", "container") = some ⟨none, .WRITE⟩)
    ∧ ∀ k : String × String × String,
        k ∉ checkpointTriples → aclMapLookup k = none := by
  constructor
  · decide
  · intro k hk
    cases h : aclMapLookup k with
    | none => rfl
    | some r =>
        exfalso
        have hmem := aclMapLookup_mem_of_some k r h
        have he : ACL_MAP.map (fun p => p.1) = checkpointTriples := by decide
        rw [he] at hmem
        exact hk hmem

/-- C1 witness: a triple outside the checkpoint table (OPTIONS on a
container) is absent from `ACL_MAP`. -/
theorem C1_witness : aclMapLookup ("OPTIONS", "HEAD", "container") = none :=
  C1_acl_map_is_checkpoint_table.2 ("OPTIONS", "HEAD", "container") (by decide)

/-- C5 counterexample: `ACL_MAP` does not contain eleven mappings. -/
theorem C5_counterexample : ¬ ACL_MAP.length = 11 := by decide

/-- C5 (amended): the static permission table contains exactly twelve
operation mappings, with pairwise distinct keys. -/
theorem C5_acl_map_has_twelve_entries :
    ACL_MAP.length = 12 ∧ (ACL_MAP.map (fun p => p.1)).Nodup := by
  constructor
  · decide
  · decide

/-- C3: whenever a header-derived ACL exists and the body is non-empty,
`get_acl` fails with `UnexpectedContent`, whatever the body parses to;
the two input forms are never merged. -/
theorem C3_get_acl_header_body_exclusive (a : ACL) (body : List Char)
    (parseBody : List Char → Except XmlErr ACL) (hbody : body ≠ []) :
    get_acl (some a) body parseBody = .error .UnexpectedContent := by
  simp [get_acl, hbody]

/-- C3 witness: header grant plus a non-empty body is rejected even
when the body would parse to a valid ACL. -/
theorem C3_witness :
    get_acl (some ⟨⟨"u".toList, "u".toList⟩, []⟩) "x".toList
        (fun _ => .ok ⟨⟨"v".toList, "v".toList⟩, []⟩)
      = .error .UnexpectedContent :=
  C3_get_acl_header_body_exclusive ⟨⟨"u".toList, "u".toList⟩, []⟩
    "x".toList (fun _ => .ok ⟨⟨"v".toList, "v".toList⟩, []⟩) (by decide)

/-- C7: with a non-empty container, no explicit permission and no
`ACL_MAP` entry for the (incoming verb, backend verb, resource) triple,
the generic check raises the fatal no-permission exception — it neither
silently allows nor silently skips. -/
theorem C7_no_entry_is_fatal (selfMethod swMethod : String)
    (container obj : List Char) (userId : List Char)
    (bucketAcl objectAcl : ACL) (hc : container ≠ [])
    (hmap : aclMapLookup
        (selfMethod, swMethod, if obj = [] then "container" else "object")
      = none) :
    _handle_acl selfMethod swMethod container obj none userId
        bucketAcl objectAcl = .fatal := by
  simp [_handle_acl, resolveRule, hc, hmap]

/-- C7 witness: an OPTIONS request with no table entry and no explicit
permission hits the fatal branch. -/
theorem C7_witness :
    _handle_acl "OPTIONS" "HEAD" "b".toList [] none "u".toList
        ⟨⟨"u".toList, "u".toList⟩, []⟩ ⟨⟨"u".toList, "u".toList⟩, []⟩
      = .fatal :=
  C7_no_entry_is_fatal "OPTIONS" "HEAD" "b".toList [] "u".toList
    ⟨⟨"u".toList, "u".toList⟩, []⟩ ⟨⟨"u".toList, "u".toList⟩, []⟩
    (by decide) (by decide)

/-- C2: on the ACL endpoint (object PUT and bucket POST), whenever the
extracted ACL's owner id differs from the resource's existing owner id,
the operation fails with owner-mismatch, for any caller holding
WRITE_ACP; and whenever the operation succeeds, the stored ACL carries
the unchanged owner id — the owner never changes through an ACL
update. -/
theorem C2_acl_write_owner_immutable (userId container obj : List Char)
    (bucketAcl objectAcl : ACL) (fromHeadersAcl : Option ACL)
    (body : List Char) (parseBody : List Char → Except XmlErr ACL) :
    (∀ req_acl : ACL,
        hasPermission objectAcl userId .WRITE_ACP = true →
        container ≠ [] → obj ≠ [] →
        get_acl fromHeadersAcl body parseBody = .ok req_acl →
        req_acl.owner.id ≠ objectAcl.owner.id →
        S3AclHandler_PUT_object userId container obj bucketAcl objectAcl
            fromHeadersAcl body parseBody = .error .OwnerMismatch)
    ∧ (∀ req_acl : ACL,
        hasPermission bucketAcl userId .WRITE_ACP = true →
        container ≠ [] →
        get_acl fromHeadersAcl body parseBody = .ok req_acl →
        req_acl.owner.id ≠ bucketAcl.owner.id →
        S3AclHandler_POST_bucket userId container bucketAcl objectAcl
            fromHeadersAcl body parseBody = .error .OwnerMismatch)
    ∧ (∀ a : ACL,
        S3AclHandler_PUT_object userId container obj bucketAcl objectAcl
            fromHeadersAcl body parseBody = .ok a →
        a.owner.id = objectAcl.owner.id)
    ∧ (∀ a : ACL,
        S3AclHandler_POST_bucket userId container bucketAcl objectAcl
            fromHeadersAcl body parseBody = .ok a →
        a.owner.id = bucketAcl.owner.id) := by
  refine ⟨?_, ?_, ?_, ?_⟩
  · intro req_acl hperm hc hobj hget hne
    simp [S3AclHandler_PUT_object, _handle_acl, resolveRule, hc, hobj,
      hperm, hget, check_owner, hne]
  · intro req_acl hperm hc hget hne
    simp [S3AclHandler_POST_bucket, _handle_acl, resolveRule, hc,
      hperm, hget, check_owner, hne]
  · intro a h
    unfold S3AclHandler_PUT_object at h
    cases h1 : _handle_acl "PUT" "HEAD" container obj (some .WRITE_ACP)
        userId bucketAcl objectAcl <;> rw [h1] at h
    case skipped => simp at h
    case fatal => simp at h
    case denied probe p => simp at h
    case passed probe p r =>
      cases h2 : get_acl fromHeadersAcl body parseBody <;> rw [h2] at h
      case error e => simp at h
      case ok req_acl =>
        by_cases h3 : req_acl.owner.id = objectAcl.owner.id
        · simp [check_owner, h3] at h
          exact h ▸ h3
        · simp [check_owner, h3] at h
  · intro a h
    unfold S3AclHandler_POST_bucket at h
    cases h1 : _handle_acl "POST" "HEAD" container [] (some .WRITE_ACP)
        userId bucketAcl objectAcl <;> rw [h1] at h
    case skipped => simp at h
    case fatal => simp at h
    case denied probe p => simp at h
    case passed probe p r =>
      cases h2 : get_acl fromHeadersAcl body parseBody <;> rw [h2] at h
      case error e => simp at h
      case ok req_acl =>
        by_cases h3 : req_acl.owner.id = bucketAcl.owner.id
        · simp [check_owner, h3] at h
          exact h ▸ h3
        · simp [check_owner, h3] at h

/-- C2 witness: a caller who owns the object (hence holds WRITE_ACP)
supplies an ACL owned by a different id, and the object-ACL PUT fails
with owner-mismatch. -/
theorem C2_witness :
    S3AclHandler_PUT_object "u".toList "b".toList "o".toList
        ⟨⟨"u".toList, "u".toList⟩, []⟩ ⟨⟨"u".toList, "u".toList⟩, []⟩
        (some ⟨⟨"v".toList, "v".toList⟩, []⟩) []
        (fun _ => .error .otherErr)
      = .error .OwnerMismatch :=
  (C2_acl_write_owner_immutable "u".toList "b".toList "o".toList
      ⟨⟨"u".toList, "u".toList⟩, []⟩ ⟨⟨"u".toList, "u".toList⟩, []⟩
      (some ⟨⟨"v".toList, "v".toList⟩, []⟩) []
      (fun _ => .error .otherErr)).1
    ⟨⟨"v".toList, "v".toList⟩, []⟩ (by decide) (by decide) (by decide)
    rfl (by decide)

/-- C4 counterexample: a generic check invoked with backend verb `GET`
(the List-Parts / GET-object path) still issues its metadata probe with
verb `HEAD`, not with the supplied backend verb. -/
theorem C4_counterexample :
    _handle_acl "GET" "GET" "b".toList "o".toList none "u".toList
        ⟨⟨"u".toList, "u".toList⟩, []⟩ ⟨⟨"u".toList, "u".toList⟩, []⟩
      = .passed ⟨"HEAD", "b".toList, "o".toList⟩ .READ false
    ∧ ("HEAD" : String) ≠ "GET" := by
  exact ⟨by decide, by decide⟩

/-- C4 (amended): whenever the generic check reaches the probe step,
the metadata probe is issued with verb `HEAD` regardless of the
supplied backend verb; `sw_method` only selects the permission-table
row and decides whether the probe response is returned
(`sw_method = 'HEAD'`). -/
theorem C4_probe_is_always_HEAD (selfMethod swMethod : String)
    (container obj : List Char) (permission : Option Perm)
    (userId : List Char) (bucketAcl objectAcl : ACL) :
    (∀ (probe : ProbeLog) (p : Perm) (r : Bool),
        _handle_acl selfMethod swMethod container obj permission userId
            bucketAcl objectAcl = .passed probe p r →
        probe.verb = "HEAD" ∧ r = decide (swMethod = "HEAD"))
    ∧ (∀ (probe : ProbeLog) (p : Perm),
        _handle_acl selfMethod swMethod container obj permission userId
            bucketAcl objectAcl = .denied probe p →
        probe.verb = "HEAD") := by
  constructor
  · intro probe p r h
    simp only [_handle_acl] at h
    by_cases hc : container = []
    · simp [hc] at h
    · rw [if_neg hc] at h
      cases hrp : resolveRule selfMethod swMethod
          (if obj = [] then "container" else "object") permission with
      | mk res pm =>
          rw [hrp] at h
          cases pm with
          | none => simp at h
          | some p' =>
              by_cases hb : hasPermission
                  (if res = "object" then objectAcl else bucketAcl)
                  userId p' = true
              · simp only [hb, if_true] at h
                cases h
                constructor
                · by_cases hres : res = "object" <;> simp [hres]
                · rfl
              · simp only [hb, if_false, Bool.false_eq_true] at h
                simp at h
  · intro probe p h
    simp only [_handle_acl] at h
    by_cases hc : container = []
    · simp [hc] at h
    · rw [if_neg hc] at h
      cases hrp : resolveRule selfMethod swMethod
          (if obj = [] then "container" else "object") permission with
      | mk res pm =>
          rw [hrp] at h
          cases pm with
          | none => simp at h
          | some p' =>
              by_cases hb : hasPermission
                  (if res = "object" then objectAcl else bucketAcl)
                  userId p' = true
              · simp only [hb, if_true] at h
                simp at h
              · simp only [hb, if_false, Bool.false_eq_true] at h
                simp at h
                cases h.1
                by_cases hres : res = "object" <;> simp [hres]

/-- C4 witness: on the GET-object path the probe verb is `HEAD` and the
probe response is not returned (the backend verb is not `HEAD`). -/
theorem C4_witness :
    (⟨"HEAD", "b".toList, "o".toList⟩ : ProbeLog).verb = "HEAD"
    ∧ false = decide (("GET" : String) = "HEAD") :=
  (C4_probe_is_always_HEAD "GET" "GET" "b".toList "o".toList none
      "u".toList ⟨⟨"u".toList, "u".toList⟩, []⟩
      ⟨⟨"u".toList, "u".toList⟩, []⟩).1
    ⟨"HEAD", "b".toList, "o".toList⟩ .READ false (by decide)

/-- C6: in `BucketAclHandler.PUT` the backend create call strictly
precedes the `bucket_acl` assignment, which strictly precedes the
metadata-persisting POST; and when the backend create fails (the bucket
already exists), the existing bucket ACL is left untouched and no
further backend call is made. -/
theorem C6_create_precedes_acl_attach (backendOk : String → Bool)
    (req_acl : ACL) (st : GatewayState) :
    (backendOk "PUT" = true →
        BucketAclHandler_PUT backendOk req_acl st
          = { trace := st.trace
                ++ [.backendCall "PUT", .setBucketAcl, .backendCall "POST"],
              bucket_acl := some req_acl })
    ∧ (backendOk "PUT" = false →
        (BucketAclHandler_PUT backendOk req_acl st).bucket_acl
            = st.bucket_acl
        ∧ (BucketAclHandler_PUT backendOk req_acl st).trace
            = st.trace ++ [.backendCall "PUT"]) := by
  constructor
  · intro h
    simp [BucketAclHandler_PUT, get_acl_response, h]
  · intro h
    simp [BucketAclHandler_PUT, get_acl_response, h]

/-- C6 witness: with a backend that accepts the create, the event trace
is exactly create, then ACL attach, then persist. -/
theorem C6_witness :
    BucketAclHandler_PUT (fun _ => true) ⟨⟨"u".toList, "u".toList⟩, []⟩
        ⟨[], none⟩
      = { trace := [.backendCall "PUT", .setBucketAcl, .backendCall "POST"],
          bucket_acl := some ⟨⟨"u".toList, "u".toList⟩, []⟩ } :=
  (C6_create_precedes_acl_attach (fun _ => true)
      ⟨⟨"u".toList, "u".toList⟩, []⟩ ⟨[], none⟩).1 rfl

/-- C8 counterexample: the Upload authorizer defines no DELETE method
(the abort-multipart path), and its `handle_acl` dispatch performs no
check at all instead of invoking the generic table-driven check with
that verb. -/
theorem C8_counterexample :
    handle_acl .upload (some "DELETE") "DELETE" = .noCheck
    ∧ definesVerbMethod .upload "DELETE" = false
    ∧ Dispatch.noCheck ≠ .genericCheck "DELETE" := by
  exact ⟨by decide, by decide, by decide⟩

/-- C8 (amended): `handle_acl` invokes the authorizer's verb-named
method whenever one is defined; otherwise base-family authorizers fall
back to the generic table-driven check with that verb as the backend
verb, while the multipart-upload family deliberately performs no check
at all. -/
theorem C8_dispatch_by_family (k : HandlerKind) (method : Option String)
    (selfMethod : String) :
    (definesVerbMethod k (method.getD selfMethod) = true →
        handle_acl k method selfMethod
          = .callOwnMethod (method.getD selfMethod))
    ∧ (definesVerbMethod k (method.getD selfMethod) = false →
        isMultiUploadFamily k = false →
        handle_acl k method selfMethod
          = .genericCheck (method.getD selfMethod))
    ∧ (definesVerbMethod k (method.getD selfMethod) = false →
        isMultiUploadFamily k = true →
        handle_acl k method selfMethod = .noCheck) := by
  refine ⟨?_, ?_, ?_⟩
  · intro h
    simp [handle_acl, BaseAclHandler_handle_acl,
      MultiUploadAclHandler_handle_acl, h]
  · intro h hf
    simp [handle_acl, BaseAclHandler_handle_acl, h, hf]
  · intro h hf
    simp [handle_acl, MultiUploadAclHandler_handle_acl, h, hf]

/-- C8 witness: the bucket authorizer's own PUT method is invoked, and
the base authorizer with no GET method falls back to the generic
check. -/
theorem C8_witness :
    handle_acl .bucket (some "PUT") "PUT" = .callOwnMethod "PUT"
    ∧ handle_acl .base none "GET" = .genericCheck "GET" :=
  ⟨(C8_dispatch_by_family .bucket (some "PUT") "PUT").1 (by decide),
    (C8_dispatch_by_family .base none "GET").2.1 (by decide) (by decide)⟩

/-- The boolean `List.isSuffixOf` (Python's `str.endswith`) agrees with
the suffix relation. -/
theorem isSuffixOf_eq_true_iff (l₁ l₂ : List Char) :
    l₁.isSuffixOf l₂ = true ↔ l₁ <:+ l₂ := by
  unfold List.isSuffixOf
  rw [List.isPrefixOf_iff_prefix]
  exact List.reverse_prefix

/-- C9: constructing a multipart-family authorizer on a container name
`b ++ MULTIUPLOAD_SUFFIX` yields container exactly `b`, both through
the shared constructor and through the part handler's guarded one; the
strip is performed exactly once — applying it again to the result (any
nonempty `b`) would change it. -/
theorem C9_single_suffix_strip (b : List Char) :
    MultiUploadAclHandler_initContainer (b ++ MULTIUPLOAD_SUFFIX) = b
    ∧ PartAclHandler_init (b ++ MULTIUPLOAD_SUFFIX) = ⟨b, false⟩
    ∧ (b ≠ [] → MultiUploadAclHandler_initContainer b ≠ b) := by
  have hlen : (b ++ MULTIUPLOAD_SUFFIX).length - MULTIUPLOAD_SUFFIX.length
      = b.length := by simp
  have hstrip : (b ++ MULTIUPLOAD_SUFFIX).take
      ((b ++ MULTIUPLOAD_SUFFIX).length - MULTIUPLOAD_SUFFIX.length) = b := by
    rw [hlen]
    exact List.take_left b MULTIUPLOAD_SUFFIX
  refine ⟨hstrip, ?_, ?_⟩
  · have hs : MULTIUPLOAD_SUFFIX.isSuffixOf (b ++ MULTIUPLOAD_SUFFIX)
        = true := (isSuffixOf_eq_true_iff _ _).mpr ⟨b, rfl⟩
    simp [PartAclHandler_init, hs, hstrip]
  · intro hb hcontra
    have hlen2 := congrArg List.length hcontra
    simp [MultiUploadAclHandler_initContainer, List.length_take] at hlen2
    have h9 : MULTIUPLOAD_SUFFIX.length = 9 := by decide
    rw [h9] at hlen2
    have hpos : 0 < b.length := List.length_pos.mpr hb
    omega

/-- C9 witness: stripping `bucket+segments` yields `bucket`, and a
second strip applied to `bucket` would not leave it unchanged. -/
theorem C9_witness :
    MultiUploadAclHandler_initContainer
        ("bucket".toList ++ MULTIUPLOAD_SUFFIX) = "bucket".toList
    ∧ MultiUploadAclHandler_initContainer "bucket".toList
        ≠ "bucket".toList :=
  ⟨(C9_single_suffix_strip "bucket".toList).1,
    (C9_single_suffix_strip "bucket".toList).2.2 (by decide)⟩

/-- C10: the shared multipart constructor removes the last
`len(MULTIUPLOAD_SUFFIX)` characters of the container name
unconditionally — for every `c` its result is the prefix of `c` of
length `c.length - len(suffix)`, suffix-bearing or not — while the part
handler strips only when the suffix is actually present (recovering a
`container` with `container ++ suffix = c`) and otherwise keeps `c`
intact and enables the copy-source check. -/
theorem C10_unconditional_vs_guarded_strip (c : List Char) :
    (MultiUploadAclHandler_initContainer c
        ++ c.drop (c.length - MULTIUPLOAD_SUFFIX.length) = c)
    ∧ (MultiUploadAclHandler_initContainer c).length
        = c.length - MULTIUPLOAD_SUFFIX.length
    ∧ (MULTIUPLOAD_SUFFIX.isSuffixOf c = true →
        (PartAclHandler_init c).container ++ MULTIUPLOAD_SUFFIX = c
        ∧ (PartAclHandler_init c).check_copy_src = false)
    ∧ (MULTIUPLOAD_SUFFIX.isSuffixOf c = false →
        PartAclHandler_init c = ⟨c, true⟩) := by
  refine ⟨?_, ?_, ?_, ?_⟩
  · exact List.take_append_drop _ c
  · rw [MultiUploadAclHandler_initContainer, List.length_take]
    omega
  · intro hs
    obtain ⟨t, ht⟩ := (isSuffixOf_eq_true_iff _ _).mp hs
    have hstrip : c.take (c.length - MULTIUPLOAD_SUFFIX.length) = t := by
      rw [← ht]
      have hl : (t ++ MULTIUPLOAD_SUFFIX).length - MULTIUPLOAD_SUFFIX.length
          = t.length := by simp
      rw [hl]
      exact List.take_left t MULTIUPLOAD_SUFFIX
    constructor
    · simp [PartAclHandler_init, hs, hstrip, ht]
    · simp [PartAclHandler_init, hs]
  · intro hs
    simp [PartAclHandler_init, hs]

/-- C10 witness: a suffix-free container is left intact by the part
handler (copy-source check enabled) but still truncated by the shared
constructor; a suffix-bearing container is stripped back to its base
name by the part handler. -/
theorem C10_witness :
    (MultiUploadAclHandler_initContainer "abc".toList).length
        = "abc".toList.length - MULTIUPLOAD_SUFFIX.length
    ∧ (PartAclHandler_init "b+segments".toList).container
        ++ MULTIUPLOAD_SUFFIX = "b+segments".toList
    ∧ PartAclHandler_init "abc".toList = ⟨"abc".toList, true⟩ :=
  ⟨(C10_unconditional_vs_guarded_strip "abc".toList).2.1,
    ((C10_unconditional_vs_guarded_strip "b+segments".toList).2.2.1
      (by decide)).1,
    (C10_unconditional_vs_guarded_strip "abc".toList).2.2.2 (by decide)⟩

end Swift3
